import Mathlib

/-!
Shallow embedding of src/tiktok-counts.js (tiktok-counts-cli).

The orchestration and reconciliation engine of the script is embedded as
pure Lean functions.  The external Extraction Service (puppeteer page
interaction) is modelled by an oracle that tells, for each attempt number
(1-based), what the single page interaction of that loop iteration yields:
a thrown error whose message contains the substring "Timeout", the
negative existence check (the thrown "does not exist or is unavailable"
message, which does NOT contain "Timeout"), some other thrown error
without "Timeout", or extracted profile data.  All numeric metrics are
modelled as Nat (the script only ever produces non-negative numbers);
deltas are Int.  Console and progress-bar output, the filesystem and the
log file are presentation or persistence mechanics and carry no data that
flows back into the computation, so they are not modelled.
-/

namespace TikTokCounts

/-- One video tile extracted from the profile page: view count and link
(the source uses the sentinel "N/A" when the link is missing). -/
structure VideoRecord where
  views : Nat
  link : String
deriving DecidableEq, Repr

/-- The object built by the page-evaluate block in scrapeTikTokProfile:
followers, likes, totalViews, totalVideos and the video list.  In entries
read back from a previous report file the fields are arbitrary, so no
invariant is imposed here. -/
structure ProfileData where
  followers : Nat
  likes : Nat
  totalViews : Nat
  totalVideos : Nat
  videos : List VideoRecord
deriving DecidableEq, Repr

/-- A per-identifier result object of the script: either a success record
with username spread together with the extracted data, or an error record
with username and error reason string.  These are the only two shapes the
source ever produces. -/
inductive Outcome where
  | success (username : String) (data : ProfileData)
  | failure (username : String) (error : String)
deriving DecidableEq, Repr

/-- The username field, present on both outcome shapes. -/
def usernameOf : Outcome → String
  | .success u _ => u
  | .failure u _ => u

/-- Truthiness of the error field: failure records carry a non-empty error
string (truthy), success records have no error field (falsy).  This models
the test (user.error) and its negation (!user.error) in the source. -/
def isError : Outcome → Bool
  | .success _ _ => false
  | .failure _ _ => true

/-- What the single page interaction of one retry-loop iteration yields,
as classified by the try/catch in scrapeTikTokProfile (lines 41-107):
a thrown error whose message includes "Timeout", the negative existence
check (throws a message without "Timeout"), another thrown error without
"Timeout", or extracted data. -/
inductive AttemptResult where
  | timeoutError
  | notFoundPage
  | otherError
  | gotData (d : ProfileData)
deriving DecidableEq, Repr

/-- The error string returned by scrapeTikTokProfile when no attempt
produced a non-empty video list (source line 112). -/
def failMsg : String := "Failed to fetch non-empty videos after retries"

/-- The while loop of scrapeTikTokProfile (lines 41-107).  State: done =
attempts already made (the attempt counter), rem = retries - done, data =
the mutable data variable (persists across iterations).  Returns the
final data together with the number of Extraction Service calls made.
An error with "Timeout" in its message breaks out of the loop; the
negative existence check and every other error without "Timeout" are
logged and the loop continues; extracted data is stored in data, and the
loop breaks exactly when its video list is non-empty. -/
def runAttempts (att : Nat → AttemptResult) :
    Nat → Nat → Option ProfileData → Option ProfileData × Nat
  | _, 0, data => (data, 0)
  | done, rem + 1, data =>
    match att (done + 1) with
    | .timeoutError => (data, 1)
    | .notFoundPage =>
      let p := runAttempts att (done + 1) rem data
      (p.1, p.2 + 1)
    | .otherError =>
      let p := runAttempts att (done + 1) rem data
      (p.1, p.2 + 1)
    | .gotData d =>
      if d.videos.isEmpty then
        let p := runAttempts att (done + 1) rem (some d)
        (p.1, p.2 + 1)
      else (some d, 1)

/-- scrapeTikTokProfile (lines 26-116) together with the number of
Extraction Service calls it makes: run the retry loop starting from
attempts = 0 and data = null, then apply the final check of line 111:
if data is null or its video list is empty, return the failure record,
otherwise return the success record spreading the data. -/
def scrapeRun (att : Nat → AttemptResult) (username : String) (retries : Nat) :
    Outcome × Nat :=
  let p := runAttempts att 0 retries none
  match p.1 with
  | none => (.failure username failMsg, p.2)
  | some d =>
    if d.videos.isEmpty then (.failure username failMsg, p.2)
    else (.success username d, p.2)

/-- The outcome of scrapeTikTokProfile for one identifier. -/
def scrapeTikTokProfile (att : Nat → AttemptResult) (username : String)
    (retries : Nat) : Outcome :=
  (scrapeRun att username retries).1

/-- processInBatches (lines 119-143).  The source slices the username list
into consecutive chunks of batchSize, maps task over a chunk, awaits the
whole chunk (Promise.all resolves in slice order) and appends, so each
chunk contributes its tasks results in input order.  The loop advances by
i += batchSize and terminates only for batchSize at least 1; a non-empty
chunk is one head element plus the next batchSize - 1 elements, which is
exactly the slice for batchSize at least 1. -/
def processInBatches (task : String → Outcome) (batchSize : Nat) :
    List String → List Outcome
  | [] => []
  | u :: us =>
    (task u :: (us.take (batchSize - 1)).map task)
      ++ processInBatches task batchSize (us.drop (batchSize - 1))
termination_by l => l.length
decreasing_by
  simp only [List.length_drop, List.length_cons]
  omega

/-- The batch loop produces exactly the map of task over the input list:
every chunk contributes its elements in order and the chunks partition
the input. -/
theorem processInBatches_eq_map (task : String → Outcome) (batchSize : Nat) :
    ∀ l : List String, processInBatches task batchSize l = l.map task := by
  suffices h : ∀ (n : Nat) (l : List String), l.length ≤ n →
      processInBatches task batchSize l = l.map task by
    exact fun l => h l.length l le_rfl
  intro n
  induction n with
  | zero =>
    intro l hl
    rw [List.length_eq_zero.mp (Nat.le_zero.mp hl)]
    simp [processInBatches]
  | succ n ih =>
    intro l hl
    match l with
    | [] => simp [processInBatches]
    | u :: us =>
      rw [processInBatches]
      rw [ih (us.drop (batchSize - 1))
        (by simp only [List.length_drop, List.length_cons] at hl ⊢; omega)]
      simp only [List.map_cons, List.cons_append]
      rw [← List.map_append, List.take_append_drop]

/-- The totalVideos field as read by the reduce in validateVideoCounts
(line 241): defined on success records, undefined (none) on error records
of a previous report. -/
def totalVideosField : Outcome → Option Nat
  | .success _ d => some d.totalVideos
  | .failure _ _ => none

/-- One step of the reduce at lines 240-243: assign
map[user.username] = user.totalVideos on top of the accumulator map.
A later entry for the same username overwrites an earlier one, and an
error entry assigns undefined. -/
def updatePrev (m : String → Option Nat) (user : Outcome) : String → Option Nat :=
  fun n => if n = usernameOf user then totalVideosField user else m n

/-- previousResults (lines 240-243): the reduce over lastReport.results
starting from the empty object; looking up an absent key and looking up a
key assigned undefined both give none. -/
def previousResultsMap (entries : List Outcome) : String → Option Nat :=
  entries.foldl updatePrev (fun _ => none)

/-- The hard-coded regression tolerance videoBufferCount (line 236). -/
def videoBufferCount : Nat := 5

/-- The loop body of validateVideoCounts (lines 245-264) for one entry.
Error entries and entries whose username is not mapped to a defined
totalVideos are untouched.  A success entry whose totalVideos plus the
buffer is below the previous count triggers one corrective call
scrapeTikTokProfile(username, 1); the entry is overwritten in place
(Object.assign, same username) exactly when that corrective result is a
success with totalVideos at least the previous count, and is kept
otherwise.  The corrective oracle att gives, per username, the attempt
oracle of the corrective scrape. -/
def validateOne (att : String → Nat → AttemptResult)
    (prevMap : String → Option Nat) (user : Outcome) : Outcome :=
  match user with
  | .failure _ _ => user
  | .success name d =>
    match prevMap name with
    | none => user
    | some previousVideos =>
      if d.totalVideos + videoBufferCount < previousVideos then
        match scrapeTikTokProfile (att name) name 1 with
        | .success _ rd =>
          if previousVideos ≤ rd.totalVideos then .success name rd
          else .success name d
        | .failure _ _ => .success name d
      else user

/-- The totals object of a previous report as read back from JSON: any
field may be missing (none models undefined). -/
structure PrevTotals where
  totalUsers : Option Nat
  totalVideos : Option Nat
  totalFollowers : Option Nat
  totalLikes : Option Nat
  totalViews : Option Nat
deriving DecidableEq, Repr

/-- A previous report as consumed by the current run: its results array
and its totals object (loadLastReport also carries a timestamp, used only
for console output). -/
structure Report where
  results : List Outcome
  reportTotals : PrevTotals
deriving DecidableEq, Repr

/-- validateVideoCounts (lines 235-267).  Without a last report the input
array is returned unchanged.  Otherwise the source iterates over the
results array mutating each entry in place and returns the same array;
each iteration reads only its own entry and the precomputed
previousResults map, so the loop is a map over the list. -/
def validateVideoCounts (att : String → Nat → AttemptResult)
    (results : List Outcome) (lastReport : Option Report) : List Outcome :=
  match lastReport with
  | none => results
  | some rep => results.map (validateOne att (previousResultsMap rep.results))

/-- The totals object of the current run. -/
structure Totals where
  totalUsers : Nat
  totalVideos : Nat
  totalFollowers : Nat
  totalLikes : Nat
  totalViews : Nat
deriving DecidableEq, Repr

/-- (user.totalVideos || 0): 0 on error records. -/
def totalVideosOrZero : Outcome → Nat
  | .success _ d => d.totalVideos
  | .failure _ _ => 0

/-- (user.followers || 0): 0 on error records. -/
def followersOrZero : Outcome → Nat
  | .success _ d => d.followers
  | .failure _ _ => 0

/-- (user.likes || 0): 0 on error records. -/
def likesOrZero : Outcome → Nat
  | .success _ d => d.likes
  | .failure _ _ => 0

/-- (user.totalViews || 0): 0 on error records. -/
def totalViewsOrZero : Outcome → Nat
  | .success _ d => d.totalViews
  | .failure _ _ => 0

/-- The totals object built at lines 313-331: totalUsers is the length of
the usernames list, every other field reduces over validatedResults with
the corresponding (field || 0) accessor starting from 0. -/
def totals (usernames : List String) (validatedResults : List Outcome) : Totals :=
  { totalUsers := usernames.length
  , totalVideos := validatedResults.foldl (fun s u => s + totalVideosOrZero u) 0
  , totalFollowers := validatedResults.foldl (fun s u => s + followersOrZero u) 0
  , totalLikes := validatedResults.foldl (fun s u => s + likesOrZero u) 0
  , totalViews := validatedResults.foldl (fun s u => s + totalViewsOrZero u) 0 }

/-- (x || 0) on a possibly missing non-negative number: undefined gives 0,
and 0 gives 0 either way. -/
def orZero (x : Option Nat) : Nat := x.getD 0

/-- The per-field differences object. -/
structure Differences where
  totalUsers : Int
  totalVideos : Int
  totalFollowers : Int
  totalLikes : Int
  totalViews : Int
deriving DecidableEq, Repr

/-- calculateDifferences (lines 184-192): per field,
current.field - (previous.field || 0). -/
def calculateDifferences (current : Totals) (previous : PrevTotals) : Differences :=
  { totalUsers := (current.totalUsers : Int) - (orZero previous.totalUsers : Int)
  , totalVideos := (current.totalVideos : Int) - (orZero previous.totalVideos : Int)
  , totalFollowers := (current.totalFollowers : Int) - (orZero previous.totalFollowers : Int)
  , totalLikes := (current.totalLikes : Int) - (orZero previous.totalLikes : Int)
  , totalViews := (current.totalViews : Int) - (orZero previous.totalViews : Int) }

/-- Lines 333-335: differences stays null unless a last report exists, in
which case it is calculateDifferences of the current totals against the
previous totals. -/
def differences (currentTotals : Totals) (lastReport : Option Report) :
    Option Differences :=
  match lastReport with
  | none => none
  | some rep => some (calculateDifferences currentTotals rep.reportTotals)

/-- The metric names the script ranks by: getTopUsers is called with the
string keys "followers", "totalViews" and "likes" (lines 338-340). -/
inductive Metric where
  | followers
  | totalViews
  | likes
deriving DecidableEq, Repr

/-- (user[metric] || 0), the value the comparator and the formatter read:
the named field on success records, 0 on error records (where the field is
undefined).  Error records are filtered out before it is ever read. -/
def metricValue : Metric → Outcome → Nat
  | .followers, .success _ d => d.followers
  | .totalViews, .success _ d => d.totalViews
  | .likes, .success _ d => d.likes
  | _, .failure _ _ => 0

/-- The order the comparator (b[metric] || 0) - (a[metric] || 0) sorts by:
a comes no later than b exactly when the metric of a is at least the
metric of b (descending). -/
def metricGE (m : Metric) : Outcome → Outcome → Prop :=
  fun a b => metricValue m b ≤ metricValue m a

instance (m : Metric) : DecidableRel (metricGE m) :=
  fun _ _ => Nat.decLe _ _

instance (m : Metric) : IsTotal Outcome (metricGE m) :=
  ⟨fun a b => Nat.le_total (metricValue m b) (metricValue m a)⟩

instance (m : Metric) : IsTrans Outcome (metricGE m) :=
  ⟨fun _ _ _ hab hbc => Nat.le_trans hbc hab⟩

/-- getTopUsers (lines 195-205) up to presentation: filter out error
records, sort by the comparator (b[metric] || 0) - (a[metric] || 0) and
truncate to count.  Array.prototype.sort is stable (ES2019, Node 14+), and
a stable sort for the total preorder of the comparator is unique, so it is
embedded as the stable insertion sort for metricGE.  The source then maps
each entry to a rank string and joins with newlines; that formatting is
presentation only and carries exactly this list. -/
def getTopUsers (results : List Outcome) (metric : Metric) (count : Nat) :
    List Outcome :=
  ((results.filter (fun user => !isError user)).insertionSort (metricGE metric)).take
    count

/-- The highest object of the output document (lines 353-357), holding the
three per-metric rankings computed at lines 338-340. -/
structure Rankings where
  topUsersByFollowers : List Outcome
  topUsersByViews : List Outcome
  topUsersByLikes : List Outcome
deriving DecidableEq, Repr

/-- The outputData object persisted at lines 349-360: timestamp, the full
validated results array, the totals and the rankings.  These four are all
of its keys. -/
structure OutputData where
  timestamp : String
  results : List Outcome
  totals : Totals
  highest : Rankings
deriving DecidableEq, Repr

/-- The JSON keys of the persisted outputData object, in source order
(lines 349-358). -/
def outputDataKeys : List String := ["timestamp", "results", "totals", "highest"]

/-- The data pipeline of the main function (lines 270-400) from the
de-duplicated username list, the configuration and the loaded last report
to the persisted document: batch-scrape every username, reconcile against
the last report, total, rank and assemble.  validateVideoCounts mutates
the results array in place and returns the same array, so the results
variable read by getTopUsers at lines 338-340 holds the validated
entries. -/
def mainRun (att : String → Nat → AttemptResult) (usernames : List String)
    (retries rankLimit batchSize : Nat) (lastReport : Option Report)
    (ts : String) : OutputData :=
  let results := processInBatches
    (fun username => scrapeTikTokProfile (att username) username retries)
    batchSize usernames
  let validatedResults := validateVideoCounts att results lastReport
  { timestamp := ts
  , results := validatedResults
  , totals := totals usernames validatedResults
  , highest :=
    { topUsersByFollowers := getTopUsers validatedResults .followers rankLimit
    , topUsersByViews := getTopUsers validatedResults .totalViews rankLimit
    , topUsersByLikes := getTopUsers validatedResults .likes rankLimit } }

/-- Following the specification wording, for comparison with the code: the
sum of a metric field over Success entries only. -/
def sumOverSuccesses (f : ProfileData → Nat) (outcomes : List Outcome) : Nat :=
  (outcomes.filterMap (fun o => match o with
    | .success _ d => some (f d)
    | .failure _ _ => none)).sum

theorem foldl_updatePrev_of_not_mem (name : String) :
    ∀ (es : List Outcome) (m0 : String → Option Nat),
      (∀ e ∈ es, usernameOf e ≠ name) →
      es.foldl updatePrev m0 name = m0 name := by
  intro es
  induction es with
  | nil => intro m0 _; rfl
  | cons e es ih =>
    intro m0 h
    rw [List.foldl_cons, ih _ (fun x hx => h x (List.mem_cons_of_mem e hx))]
    have hne : ¬ (name = usernameOf e) :=
      fun hc => h e (List.mem_cons_self e es) (Eq.symm hc)
    simp only [updatePrev, if_neg hne]

theorem foldl_updatePrev_of_mem (e : Outcome) :
    ∀ (es : List Outcome) (m0 : String → Option Nat), e ∈ es →
      (es.map usernameOf).Nodup →
      es.foldl updatePrev m0 (usernameOf e) = totalVideosField e := by
  intro es
  induction es with
  | nil => intro m0 h _; exact absurd h (List.not_mem_nil e)
  | cons b bs ih =>
    intro m0 hmem hnd
    rw [List.map_cons, List.nodup_cons] at hnd
    rcases List.mem_cons.mp hmem with he | he
    · subst he
      rw [List.foldl_cons]
      have hne : ∀ x ∈ bs, usernameOf x ≠ usernameOf e := by
        intro x hx hc
        exact hnd.1 (hc ▸ List.mem_map_of_mem usernameOf hx)
      rw [foldl_updatePrev_of_not_mem _ bs _ hne]
      simp [updatePrev]
    · exact List.foldl_cons _ _ ▸ ih _ he hnd.2

/-- The previousResults reduce looks up exactly the totalVideos field of
the unique entry carrying the username, when the previous results carry
pairwise distinct usernames. -/
theorem previousResultsMap_eq (entries : List Outcome) (e : Outcome)
    (hmem : e ∈ entries) (hnd : (entries.map usernameOf).Nodup) :
    previousResultsMap entries (usernameOf e) = totalVideosField e :=
  foldl_updatePrev_of_mem e entries _ hmem hnd

theorem validateVideoCounts_length (att : String → Nat → AttemptResult)
    (results : List Outcome) (lastReport : Option Report) :
    (validateVideoCounts att results lastReport).length = results.length := by
  cases lastReport with
  | none => rfl
  | some rep => simp [validateVideoCounts]

theorem foldl_add_apply (g : Outcome → Nat) :
    ∀ (l : List Outcome) (a : Nat),
      l.foldl (fun s u => s + g u) a = a + (l.map g).sum := by
  intro l
  induction l with
  | nil => simp
  | cons x xs ih =>
    intro a
    rw [List.foldl_cons, ih, List.map_cons, List.sum_cons]
    omega

theorem sum_map_eq_sumOverSuccesses (f : ProfileData → Nat) (g : Outcome → Nat)
    (hs : ∀ u d, g (.success u d) = f d) (he : ∀ u s, g (.failure u s) = 0) :
    ∀ l : List Outcome, (l.map g).sum = sumOverSuccesses f l := by
  intro l
  induction l with
  | nil => rfl
  | cons x xs ih =>
    cases x with
    | success u d =>
      have hstep : sumOverSuccesses f (Outcome.success u d :: xs)
          = f d + sumOverSuccesses f xs := by
        simp [sumOverSuccesses]
      rw [List.map_cons, List.sum_cons, hs, hstep, ih]
    | failure u s =>
      have hstep : sumOverSuccesses f (Outcome.failure u s :: xs)
          = sumOverSuccesses f xs := by
        simp [sumOverSuccesses]
      rw [List.map_cons, List.sum_cons, he, hstep, ih, Nat.zero_add]

/-- The username on the outcome of scrapeTikTokProfile is the identifier
it was called with, on every exit path. -/
theorem usernameOf_scrapeTikTokProfile (att : Nat → AttemptResult)
    (username : String) (retries : Nat) :
    usernameOf (scrapeTikTokProfile att username retries) = username := by
  unfold scrapeTikTokProfile scrapeRun
  rcases h : (runAttempts att 0 retries none).1 with _ | d
  · simp [h, usernameOf]
  · by_cases he : d.videos = [] <;> simp [h, he, usernameOf]

/-- When every existence check is negative, the loop keeps retrying and
never changes data. -/
theorem runAttempts_allNotFound (att : Nat → AttemptResult)
    (h : ∀ k, att k = .notFoundPage) :
    ∀ (rem done : Nat) (data : Option ProfileData),
      runAttempts att done rem data = (data, rem) := by
  intro rem
  induction rem with
  | zero => intro done data; rfl
  | succ rem ih =>
    intro done data
    rw [runAttempts, h (done + 1)]
    show ((runAttempts att (done + 1) rem data).1,
      (runAttempts att (done + 1) rem data).2 + 1) = (data, rem + 1)
    rw [ih (done + 1) data]

/-- If no attempt ever yields data with a non-empty video list, the data
variable stays null or empty through the loop. -/
theorem runAttempts_no_usable (att : Nat → AttemptResult)
    (h : ∀ k d, att k = .gotData d → d.videos.isEmpty = true) :
    ∀ (rem done : Nat) (data : Option ProfileData),
      (data = none ∨ ∃ d, data = some d ∧ d.videos.isEmpty = true) →
      ((runAttempts att done rem data).1 = none ∨
        ∃ d, (runAttempts att done rem data).1 = some d ∧ d.videos.isEmpty = true) := by
  intro rem
  induction rem with
  | zero => intro done data hd; exact hd
  | succ rem ih =>
    intro done data hd
    rw [runAttempts]
    cases hatt : att (done + 1) with
    | timeoutError => exact hd
    | notFoundPage => exact ih (done + 1) data hd
    | otherError => exact ih (done + 1) data hd
    | gotData d =>
      have hde : d.videos.isEmpty = true := h (done + 1) d hatt
      simp only [hde, if_true]
      exact ih (done + 1) (some d) (Or.inr ⟨d, rfl, hde⟩)

/-- A corrective scrape with retries = 1 makes exactly one Extraction
Service call, whatever the attempt yields. -/
theorem scrapeRun_one_call (att : Nat → AttemptResult) (username : String) :
    (scrapeRun att username 1).2 = 1 := by
  unfold scrapeRun
  have h1 : (runAttempts att 0 1 none).2 = 1 := by
    rw [runAttempts]
    cases att 1 with
    | timeoutError => rfl
    | notFoundPage => simp [runAttempts]
    | otherError => simp [runAttempts]
    | gotData d => by_cases h : d.videos = [] <;> simp [h, runAttempts]
  rcases hr : (runAttempts att 0 1 none).1 with _ | d
  · simpa [hr] using h1
  · by_cases h : d.videos = [] <;> simp [hr, h] <;> exact h1

theorem filter_orderedInsert_metric (m : Metric) (v : Nat) (a : Outcome) :
    ∀ l : List Outcome,
      (List.orderedInsert (metricGE m) a l).filter (fun x => metricValue m x == v) =
        if metricValue m a == v
        then a :: l.filter (fun x => metricValue m x == v)
        else l.filter (fun x => metricValue m x == v) := by
  intro l
  induction l with
  | nil => simp [List.orderedInsert, List.filter_cons]
  | cons b bs ih =>
    rw [List.orderedInsert]
    by_cases hab : metricGE m a b
    · rw [if_pos hab, List.filter_cons]
    · rw [if_neg hab]
      simp only [List.filter_cons, ih]
      simp only [metricGE, not_le] at hab
      by_cases hpa : metricValue m a = v <;> by_cases hpb : metricValue m b = v
      · exfalso
        omega
      · simp [hpa, hpb]
      · simp [hpa, hpb]
      · simp [hpa, hpb]

/-- Stability of the sort used by getTopUsers: the subsequence of entries
whose metric equals any fixed value is unchanged by the sort, i.e. ties
keep their original relative order. -/
theorem filter_insertionSort_metric (m : Metric) (v : Nat) :
    ∀ l : List Outcome,
      (List.insertionSort (metricGE m) l).filter (fun x => metricValue m x == v) =
        l.filter (fun x => metricValue m x == v) := by
  intro l
  induction l with
  | nil => rfl
  | cons a l ih =>
    rw [List.insertionSort, filter_orderedInsert_metric, ih, List.filter_cons]

theorem filter_take_front (p : Outcome → Bool) :
    ∀ (l : List Outcome) (k : Nat),
      (l.filter p).take (((l.take k).filter p).length) = (l.take k).filter p := by
  intro l
  induction l with
  | nil => intro k; simp
  | cons x xs ih =>
    intro k
    cases k with
    | zero => simp
    | succ k =>
      rw [List.take_succ_cons, List.filter_cons, List.filter_cons]
      by_cases hp : p x
      · simp only [hp, if_true, List.length_cons, List.take_succ_cons]
        rw [ih]
      · simp only [hp, Bool.false_eq_true, if_false]
        rw [ih]

theorem sumOverSuccesses_all_error (f : ProfileData → Nat) :
    ∀ l : List Outcome, (∀ o ∈ l, isError o = true) → sumOverSuccesses f l = 0 := by
  intro l
  induction l with
  | nil => intro _; rfl
  | cons x xs ih =>
    intro h
    cases x with
    | success u d =>
      have hx := h _ (List.mem_cons_self _ _)
      simp [isError] at hx
    | failure u s =>
      have hstep : sumOverSuccesses f (Outcome.failure u s :: xs)
          = sumOverSuccesses f xs := by
        simp [sumOverSuccesses]
      rw [hstep]
      exact ih (fun o ho => h o (List.mem_cons_of_mem _ ho))

/-- C1: for every input list of N identifiers and every batchSize at least
1, processInBatches returns exactly N outcomes, the i-th being the outcome
of the task on the i-th input identifier — output length and order are
identical to the input. -/
theorem claim_C1 (task : String → Outcome) (batchSize : Nat)
    (usernames : List String) (hbs : 1 ≤ batchSize) :
    (processInBatches task batchSize usernames).length = usernames.length
    ∧ (∀ i : Nat,
        (processInBatches task batchSize usernames)[i]? = usernames[i]?.map task)
    ∧ processInBatches task batchSize usernames = usernames.map task := by
  refine ⟨?_, ?_, processInBatches_eq_map task batchSize usernames⟩
  · rw [processInBatches_eq_map task batchSize usernames]
    exact List.length_map usernames task
  · intro i
    rw [processInBatches_eq_map task batchSize usernames]
    exact List.getElem?_map ..

theorem claim_C1_witness :
    (processInBatches (fun u => Outcome.failure u "e") 2 ["a", "b", "c"]).length
      = (["a", "b", "c"] : List String).length :=
  (claim_C1 (fun u => Outcome.failure u "e") 2 ["a", "b", "c"] (by decide)).1

/-- C6: for an outcome list aligned with the username list, the totals
object has totalUsers equal to the length of the outcome list, and every
other field is the sum of that field over Success entries only, error
entries contributing zero; for an all-error input every field but
totalUsers is zero. -/
theorem claim_C6 (usernames : List String) (results : List Outcome)
    (hlen : results.length = usernames.length) :
    (totals usernames results).totalUsers = results.length
    ∧ (totals usernames results).totalVideos
        = sumOverSuccesses (fun d => d.totalVideos) results
    ∧ (totals usernames results).totalFollowers
        = sumOverSuccesses (fun d => d.followers) results
    ∧ (totals usernames results).totalLikes
        = sumOverSuccesses (fun d => d.likes) results
    ∧ (totals usernames results).totalViews
        = sumOverSuccesses (fun d => d.totalViews) results
    ∧ ((∀ o ∈ results, isError o = true) →
        (totals usernames results).totalVideos = 0
        ∧ (totals usernames results).totalFollowers = 0
        ∧ (totals usernames results).totalLikes = 0
        ∧ (totals usernames results).totalViews = 0) := by
  have e1 : (totals usernames results).totalVideos
      = sumOverSuccesses (fun d => d.totalVideos) results := by
    rw [show (totals usernames results).totalVideos
        = results.foldl (fun s u => s + totalVideosOrZero u) 0 from rfl,
      foldl_add_apply, Nat.zero_add]
    exact sum_map_eq_sumOverSuccesses _ _ (fun _ _ => rfl) (fun _ _ => rfl) results
  have e2 : (totals usernames results).totalFollowers
      = sumOverSuccesses (fun d => d.followers) results := by
    rw [show (totals usernames results).totalFollowers
        = results.foldl (fun s u => s + followersOrZero u) 0 from rfl,
      foldl_add_apply, Nat.zero_add]
    exact sum_map_eq_sumOverSuccesses _ _ (fun _ _ => rfl) (fun _ _ => rfl) results
  have e3 : (totals usernames results).totalLikes
      = sumOverSuccesses (fun d => d.likes) results := by
    rw [show (totals usernames results).totalLikes
        = results.foldl (fun s u => s + likesOrZero u) 0 from rfl,
      foldl_add_apply, Nat.zero_add]
    exact sum_map_eq_sumOverSuccesses _ _ (fun _ _ => rfl) (fun _ _ => rfl) results
  have e4 : (totals usernames results).totalViews
      = sumOverSuccesses (fun d => d.totalViews) results := by
    rw [show (totals usernames results).totalViews
        = results.foldl (fun s u => s + totalViewsOrZero u) 0 from rfl,
      foldl_add_apply, Nat.zero_add]
    exact sum_map_eq_sumOverSuccesses _ _ (fun _ _ => rfl) (fun _ _ => rfl) results
  refine ⟨by simpa [totals] using hlen.symm, e1, e2, e3, e4, ?_⟩
  intro hall
  exact ⟨by rw [e1]; exact sumOverSuccesses_all_error _ _ hall,
    by rw [e2]; exact sumOverSuccesses_all_error _ _ hall,
    by rw [e3]; exact sumOverSuccesses_all_error _ _ hall,
    by rw [e4]; exact sumOverSuccesses_all_error _ _ hall⟩

theorem claim_C6_witness :
    (totals ["a"] [Outcome.failure "a" "x"]).totalUsers
        = ([Outcome.failure "a" "x"] : List Outcome).length
    ∧ (totals ["a"] [Outcome.failure "a" "x"]).totalViews = 0 :=
  ⟨(claim_C6 ["a"] [Outcome.failure "a" "x"] rfl).1,
    ((claim_C6 ["a"] [Outcome.failure "a" "x"] rfl).2.2.2.2.2
      (by intro o ho; simp at ho; rw [ho]; rfl)).2.2.2⟩

/-- Following the specification wording, for comparison with the code: the
first-run deltas the specification promises when the previous report is
absent, every delta equal to the current value. -/
def specFirstRunDeltas (current : Totals) : Differences :=
  { totalUsers := (current.totalUsers : Int)
  , totalVideos := (current.totalVideos : Int)
  , totalFollowers := (current.totalFollowers : Int)
  , totalLikes := (current.totalLikes : Int)
  , totalViews := (current.totalViews : Int) }

/-- C8 counterexample: at the concrete current totals of the specification
example ({totalUsers 3, totalVideos 10, totalFollowers 500, totalLikes 200,
totalViews 9000}) with no previous report, the code computes no deltas at
all (differences stays null); it does not produce deltas equal to the
current totals as the claim states. -/
theorem claim_C8_counterexample :
    differences ⟨3, 10, 500, 200, 9000⟩ none = none
    ∧ ¬ (differences ⟨3, 10, 500, 200, 9000⟩ none
        = some (specFirstRunDeltas ⟨3, 10, 500, 200, 9000⟩)) :=
  ⟨rfl, fun h => Option.noConfusion h⟩

/-- C8 (amended): each delta field is current minus (previous field or 0
when the field is absent) whenever a previous report exists; when the
previous report is absent entirely, no deltas are computed (differences is
null), which keeps the first run distinct from any computed-deltas state
(including an all-zero no-change delta). -/
theorem claim_C8 (t : Totals) (rep : Report) :
    differences t none = none
    ∧ differences t (some rep) = some (calculateDifferences t rep.reportTotals)
    ∧ (calculateDifferences t rep.reportTotals).totalUsers
        = (t.totalUsers : Int) - (orZero rep.reportTotals.totalUsers : Int)
    ∧ (calculateDifferences t rep.reportTotals).totalVideos
        = (t.totalVideos : Int) - (orZero rep.reportTotals.totalVideos : Int)
    ∧ (calculateDifferences t rep.reportTotals).totalFollowers
        = (t.totalFollowers : Int) - (orZero rep.reportTotals.totalFollowers : Int)
    ∧ (calculateDifferences t rep.reportTotals).totalLikes
        = (t.totalLikes : Int) - (orZero rep.reportTotals.totalLikes : Int)
    ∧ (calculateDifferences t rep.reportTotals).totalViews
        = (t.totalViews : Int) - (orZero rep.reportTotals.totalViews : Int)
    ∧ differences t none ≠ some (calculateDifferences t rep.reportTotals) :=
  ⟨rfl, rfl, rfl, rfl, rfl, rfl, rfl, fun h => Option.noConfusion h⟩

/-- C3 counterexample: with every attempt hitting the negative existence
check and retries = 3, the executor makes three Extraction Service calls,
not one, and returns the generic Failed record, not a distinct not-found
outcome returned immediately: the negative check is retried. -/
theorem claim_C3_counterexample :
    scrapeRun (fun _ => AttemptResult.notFoundPage) "alice" 3
      = (Outcome.failure "alice" failMsg, 3)
    ∧ (scrapeRun (fun _ => AttemptResult.notFoundPage) "alice" 3).2 ≠ 1 := by
  exact ⟨rfl, by decide⟩

/-- C3 (amended): a negative existence check is not terminal: the thrown
message lacks the substring "Timeout", so the catch logs it and the loop
continues.  When every attempt hits the negative existence check, the
executor makes exactly retries Extraction Service calls and returns the
generic Failed record. -/
theorem claim_C3 (att : Nat → AttemptResult) (username : String) (retries : Nat)
    (h : ∀ k, att k = AttemptResult.notFoundPage) :
    scrapeRun att username retries = (Outcome.failure username failMsg, retries) := by
  have hr := runAttempts_allNotFound att h retries 0 none
  unfold scrapeRun
  simp only [hr]

theorem claim_C3_witness :
    scrapeRun (fun _ => AttemptResult.notFoundPage) "bob" 2
      = (Outcome.failure "bob" failMsg, 2) :=
  claim_C3 (fun _ => AttemptResult.notFoundPage) "bob" 2 (fun _ => rfl)

/-- C4 counterexample: with retries = 2, a timeout on attempt 1 and data
with a non-empty video list available on attempt 2, the executor stops
after one Extraction Service call and returns Failed: a timeout does not
continue the retry loop as the claim states. -/
theorem claim_C4_counterexample :
    scrapeRun (fun k => if k = 1 then AttemptResult.timeoutError
        else AttemptResult.gotData ⟨1, 2, 3, 1, [⟨3, "L"⟩]⟩) "bob" 2
      = (Outcome.failure "bob" failMsg, 1)
    ∧ (scrapeRun (fun k => if k = 1 then AttemptResult.timeoutError
        else AttemptResult.gotData ⟨1, 2, 3, 1, [⟨3, "L"⟩]⟩) "bob" 2).2 ≠ 2 := by
  exact ⟨rfl, by decide⟩

/-- C4 (amended): a transient error whose message lacks "Timeout" (the
negative existence check or another render error) is recorded and the
loop continues; an error with "Timeout" in its message terminates the
loop immediately; and when no attempt ever yields a non-empty video list
the executor returns the Failed record for exhausted retries. -/
theorem claim_C4 :
    (∀ (att : Nat → AttemptResult) (done rem : Nat) (data : Option ProfileData),
      att (done + 1) = AttemptResult.notFoundPage
        ∨ att (done + 1) = AttemptResult.otherError →
      runAttempts att done (rem + 1) data
        = ((runAttempts att (done + 1) rem data).1,
          (runAttempts att (done + 1) rem data).2 + 1))
    ∧ (∀ (att : Nat → AttemptResult) (done rem : Nat) (data : Option ProfileData),
      att (done + 1) = AttemptResult.timeoutError →
      runAttempts att done (rem + 1) data = (data, 1))
    ∧ (∀ (att : Nat → AttemptResult) (username : String) (retries : Nat),
      (∀ k d, att k = AttemptResult.gotData d → d.videos.isEmpty = true) →
      scrapeTikTokProfile att username retries
        = Outcome.failure username failMsg) := by
  refine ⟨?_, ?_, ?_⟩
  · intro att done rem data h
    rcases h with h | h <;> rw [runAttempts, h]
  · intro att done rem data h
    rw [runAttempts, h]
  · intro att username retries h
    have hinv := runAttempts_no_usable att h retries 0 none (Or.inl rfl)
    unfold scrapeTikTokProfile scrapeRun
    rcases hinv with h1 | ⟨d, h1, h2⟩
    · simp [h1]
    · simp [h1, h2]

theorem claim_C4_witness :
    runAttempts (fun _ => AttemptResult.otherError) 0 2 none
      = ((runAttempts (fun _ => AttemptResult.otherError) 1 1 none).1,
        (runAttempts (fun _ => AttemptResult.otherError) 1 1 none).2 + 1)
    ∧ runAttempts (fun _ => AttemptResult.timeoutError) 0 3 none = (none, 1)
    ∧ scrapeTikTokProfile (fun _ => AttemptResult.otherError) "carol" 2
      = Outcome.failure "carol" failMsg :=
  ⟨claim_C4.1 (fun _ => AttemptResult.otherError) 0 1 none (Or.inr rfl),
    claim_C4.2.1 (fun _ => AttemptResult.timeoutError) 0 2 none rfl,
    claim_C4.2.2 (fun _ => AttemptResult.otherError) "carol" 2
      (fun _ _ hk => nomatch hk)⟩

/-- C5: a successful extraction whose video list is empty is never the
returned outcome (the final check turns it into Failed even after
exhaustion) and, while budget remains, causes another attempt; a
successful extraction with a non-empty video list is returned immediately,
consuming exactly one call and making no further attempts. -/
theorem claim_C5 :
    (∀ (att : Nat → AttemptResult) (username : String) (retries : Nat)
        (name : String) (d : ProfileData),
      scrapeTikTokProfile att username retries = Outcome.success name d →
      d.videos.isEmpty = false)
    ∧ (∀ (att : Nat → AttemptResult) (done rem : Nat) (data : Option ProfileData)
        (d : ProfileData),
      att (done + 1) = AttemptResult.gotData d → d.videos.isEmpty = false →
      runAttempts att done (rem + 1) data = (some d, 1))
    ∧ (∀ (att : Nat → AttemptResult) (done rem : Nat) (data : Option ProfileData)
        (d : ProfileData),
      att (done + 1) = AttemptResult.gotData d → d.videos.isEmpty = true →
      runAttempts att done (rem + 1) data
        = ((runAttempts att (done + 1) rem (some d)).1,
          (runAttempts att (done + 1) rem (some d)).2 + 1)) := by
  refine ⟨?_, ?_, ?_⟩
  · intro att username retries name d h
    unfold scrapeTikTokProfile scrapeRun at h
    rcases hr : (runAttempts att 0 retries none).1 with _ | d'
    · simp [hr] at h
    · by_cases he : d'.videos.isEmpty = true
      · simp [hr, he] at h
      · simp only [hr] at h
        rw [if_neg he] at h
        injection h with hu hd
        subst hd
        exact Bool.eq_false_iff.mpr he
  · intro att done rem data d hatt hne
    rw [runAttempts, hatt]
    simp [hne]
  · intro att done rem data d hatt he
    rw [runAttempts, hatt]
    simp [he]

theorem claim_C5_witness :
    (⟨1, 1, 5, 1, [⟨5, "l"⟩]⟩ : ProfileData).videos.isEmpty = false
    ∧ runAttempts (fun _ => AttemptResult.gotData ⟨1, 1, 5, 1, [⟨5, "l"⟩]⟩) 0 4 none
      = (some ⟨1, 1, 5, 1, [⟨5, "l"⟩]⟩, 1)
    ∧ runAttempts (fun _ => AttemptResult.gotData ⟨0, 0, 0, 0, []⟩) 0 2 none
      = ((runAttempts (fun _ => AttemptResult.gotData ⟨0, 0, 0, 0, []⟩) 1 1
          (some ⟨0, 0, 0, 0, []⟩)).1,
        (runAttempts (fun _ => AttemptResult.gotData ⟨0, 0, 0, 0, []⟩) 1 1
          (some ⟨0, 0, 0, 0, []⟩)).2 + 1) :=
  ⟨claim_C5.1 (fun _ => AttemptResult.gotData ⟨1, 1, 5, 1, [⟨5, "l"⟩]⟩) "dave" 1
      "dave" ⟨1, 1, 5, 1, [⟨5, "l"⟩]⟩ rfl,
    claim_C5.2.1 (fun _ => AttemptResult.gotData ⟨1, 1, 5, 1, [⟨5, "l"⟩]⟩) 0 3 none
      ⟨1, 1, 5, 1, [⟨5, "l"⟩]⟩ rfl rfl,
    claim_C5.2.2 (fun _ => AttemptResult.gotData ⟨0, 0, 0, 0, []⟩) 0 1 none
      ⟨0, 0, 0, 0, []⟩ rfl rfl⟩

/-- The number of corrective scrape calls the loop body at lines 245-264
makes for one entry: the call at line 253 runs exactly when the entry is a
success record, its username has a defined previous totalVideos, and the
regression guard of line 248 holds. -/
def correctiveFetchCount (prevMap : String → Option Nat) : Outcome → Nat
  | .failure _ _ => 0
  | .success name d =>
    match prevMap name with
    | none => 0
    | some previousVideos =>
      if d.totalVideos + videoBufferCount < previousVideos then 1 else 0

/-- C2: a Success entry whose identifier appears as a Success with
totalVideos pd.totalVideos in a previous report carrying pairwise distinct
usernames is flagged exactly when current totalVideos + 5 < previous;
a flagged entry triggers exactly one corrective re-fetch with
maxRetries = 1 (one Extraction Service call), an unflagged entry triggers
none; the entry is replaced by the corrective result exactly when that
result is a Success with totalVideos at least the previous count, and is
kept unchanged otherwise. -/
theorem claim_C2 (att : String → Nat → AttemptResult) (results : List Outcome)
    (rep : Report) (i : Nat) (name : String) (d : ProfileData)
    (hcur : results[i]? = some (Outcome.success name d))
    (pd : ProfileData) (hprev : Outcome.success name pd ∈ rep.results)
    (hnd : (rep.results.map usernameOf).Nodup) :
    (d.totalVideos + videoBufferCount < pd.totalVideos →
      correctiveFetchCount (previousResultsMap rep.results)
          (Outcome.success name d) = 1
      ∧ (scrapeRun (att name) name 1).2 = 1
      ∧ (∀ rd, scrapeTikTokProfile (att name) name 1 = Outcome.success name rd →
          pd.totalVideos ≤ rd.totalVideos →
          (validateVideoCounts att results (some rep))[i]?
            = some (Outcome.success name rd))
      ∧ (∀ rd, scrapeTikTokProfile (att name) name 1 = Outcome.success name rd →
          rd.totalVideos < pd.totalVideos →
          (validateVideoCounts att results (some rep))[i]?
            = some (Outcome.success name d))
      ∧ (∀ u e, scrapeTikTokProfile (att name) name 1 = Outcome.failure u e →
          (validateVideoCounts att results (some rep))[i]?
            = some (Outcome.success name d)))
    ∧ (¬ d.totalVideos + videoBufferCount < pd.totalVideos →
        correctiveFetchCount (previousResultsMap rep.results)
            (Outcome.success name d) = 0
        ∧ (validateVideoCounts att results (some rep))[i]?
            = some (Outcome.success name d)) := by
  have hpm : previousResultsMap rep.results name = some pd.totalVideos := by
    have hh := previousResultsMap_eq rep.results (Outcome.success name pd) hprev hnd
    simpa [usernameOf, totalVideosField] using hh
  have hget : (validateVideoCounts att results (some rep))[i]?
      = some (validateOne att (previousResultsMap rep.results)
        (Outcome.success name d)) := by
    show (results.map (validateOne att (previousResultsMap rep.results)))[i]? = _
    rw [List.getElem?_map, hcur]
    rfl
  constructor
  · intro hflag
    refine ⟨?_, scrapeRun_one_call (att name) name, ?_, ?_, ?_⟩
    · simp [correctiveFetchCount, hpm, hflag]
    · intro rd hs hge
      rw [hget]
      simp [validateOne, hpm, hflag, hs, hge]
    · intro rd hs hlt
      rw [hget]
      simp [validateOne, hpm, hflag, hs, Nat.not_le.mpr hlt]
    · intro u e hs
      rw [hget]
      simp [validateOne, hpm, hflag, hs]
  · intro hnot
    constructor
    · simp [correctiveFetchCount, hpm, hnot]
    · rw [hget]
      simp [validateOne, hpm, hnot]

theorem claim_C2_witness :
    (validateVideoCounts
        (fun _ _ => AttemptResult.gotData ⟨0, 0, 0, 21, [⟨1, "l"⟩]⟩)
        [Outcome.success "alice" ⟨0, 0, 0, 10, []⟩]
        (some ⟨[Outcome.success "alice" ⟨0, 0, 0, 20, []⟩],
          ⟨none, none, none, none, none⟩⟩))[0]?
      = some (Outcome.success "alice" ⟨0, 0, 0, 21, [⟨1, "l"⟩]⟩) :=
  ((claim_C2 (fun _ _ => AttemptResult.gotData ⟨0, 0, 0, 21, [⟨1, "l"⟩]⟩)
      [Outcome.success "alice" ⟨0, 0, 0, 10, []⟩]
      ⟨[Outcome.success "alice" ⟨0, 0, 0, 20, []⟩], ⟨none, none, none, none, none⟩⟩
      0 "alice" ⟨0, 0, 0, 10, []⟩ rfl ⟨0, 0, 0, 20, []⟩
      (List.mem_cons_self _ _) (by decide)).1
    (by decide)).2.2.1 ⟨0, 0, 0, 21, [⟨1, "l"⟩]⟩ rfl (by decide)

/-- C10: reconciliation returns a list of the same length in the same
order, every entry keeps its original username, error entries pass through
unchanged, success entries stay success entries with the same username,
and an entry differs from its input only when it was a flagged success
whose corrective scrape succeeded with at least the previous video count:
reconciliation never adds, drops, reorders or re-identifies entries. -/
theorem claim_C10 (att : String → Nat → AttemptResult) (results : List Outcome)
    (lastReport : Option Report) :
    (validateVideoCounts att results lastReport).length = results.length
    ∧ (∀ i : Nat, ((validateVideoCounts att results lastReport)[i]?).map usernameOf
        = (results[i]?).map usernameOf)
    ∧ (∀ (i : Nat) (u e : String), results[i]? = some (Outcome.failure u e) →
        (validateVideoCounts att results lastReport)[i]?
          = some (Outcome.failure u e))
    ∧ (∀ (i : Nat) (name : String) (d : ProfileData),
        results[i]? = some (Outcome.success name d) →
        (validateVideoCounts att results lastReport)[i]?
            = some (Outcome.success name d)
        ∨ ∃ rep rd pv, lastReport = some rep
            ∧ previousResultsMap rep.results name = some pv
            ∧ d.totalVideos + videoBufferCount < pv
            ∧ pv ≤ rd.totalVideos
            ∧ scrapeTikTokProfile (att name) name 1 = Outcome.success name rd
            ∧ (validateVideoCounts att results lastReport)[i]?
                = some (Outcome.success name rd)) := by
  refine ⟨validateVideoCounts_length att results lastReport, ?_, ?_, ?_⟩
  · intro i
    cases lastReport with
    | none => rfl
    | some rep =>
      show ((results.map (validateOne att (previousResultsMap rep.results)))[i]?).map
        usernameOf = _
      rw [List.getElem?_map]
      cases results[i]? with
      | none => rfl
      | some user =>
        show some (usernameOf (validateOne att (previousResultsMap rep.results) user))
          = some (usernameOf user)
        cases user with
        | failure u e => rfl
        | success nm dd =>
          simp only [validateOne]
          cases previousResultsMap rep.results nm with
          | none => rfl
          | some pv =>
            by_cases hf : dd.totalVideos + videoBufferCount < pv
            · simp only [if_pos hf]
              cases scrapeTikTokProfile (att nm) nm 1 with
              | success u2 rd =>
                by_cases hge : pv ≤ rd.totalVideos
                · simp [hge, usernameOf]
                · simp [hge, usernameOf]
              | failure u2 e2 => rfl
            · simp [if_neg hf]
  · intro i u e hcur
    cases lastReport with
    | none => exact hcur
    | some rep =>
      show (results.map (validateOne att (previousResultsMap rep.results)))[i]? = _
      rw [List.getElem?_map, hcur]
      rfl
  · intro i name d hcur
    cases lastReport with
    | none => exact Or.inl hcur
    | some rep =>
      have hget : (validateVideoCounts att results (some rep))[i]?
          = some (validateOne att (previousResultsMap rep.results)
            (Outcome.success name d)) := by
        show (results.map (validateOne att (previousResultsMap rep.results)))[i]? = _
        rw [List.getElem?_map, hcur]
        rfl
      rw [hget]
      simp only [validateOne]
      cases hpm : previousResultsMap rep.results name with
      | none => exact Or.inl rfl
      | some pv =>
        by_cases hf : d.totalVideos + videoBufferCount < pv
        · simp only [if_pos hf]
          rcases hs : scrapeTikTokProfile (att name) name 1 with ⟨u2, rd⟩ | ⟨u2, e2⟩
          · have hu2 : u2 = name := by
              have hh := usernameOf_scrapeTikTokProfile (att name) name 1
              rw [hs] at hh
              exact hh
            subst hu2
            by_cases hge : pv ≤ rd.totalVideos
            · simp only [if_pos hge]
              exact Or.inr ⟨rep, rd, pv, rfl, hpm, hf, hge, rfl, rfl⟩
            · simp only [if_neg hge]
              exact Or.inl (by trivial)
          · exact Or.inl (by trivial)
        · simp only [if_neg hf]
          exact Or.inl (by trivial)

theorem claim_C10_witness :
    (validateVideoCounts (fun _ _ => AttemptResult.timeoutError)
        [Outcome.failure "a" "x"] none)[0]? = some (Outcome.failure "a" "x") :=
  (claim_C10 (fun _ _ => AttemptResult.timeoutError)
    [Outcome.failure "a" "x"] none).2.2.1 0 "a" "x" rfl

/-- C7: the ranking list contains only Success entries, is sorted
descending by the named metric, has length at most the limit, breaks ties
by original input order (the tie group for any metric value is an initial
segment of the input-ordered tie group), and no Success entry outside the
returned list has a metric value exceeding any value present in it, in
particular the smallest. -/
theorem claim_C7 (results : List Outcome) (m : Metric) (k : Nat) :
    (∀ x ∈ getTopUsers results m k, isError x = false)
    ∧ (getTopUsers results m k).length ≤ k
    ∧ List.Pairwise (fun a b => metricValue m b ≤ metricValue m a)
        (getTopUsers results m k)
    ∧ (∀ v : Nat, ∃ n : Nat,
        (getTopUsers results m k).filter (fun x => metricValue m x == v)
          = ((results.filter (fun u => !isError u)).filter
              (fun x => metricValue m x == v)).take n)
    ∧ (∀ x ∈ results, isError x = false → x ∉ getTopUsers results m k →
        ∀ y ∈ getTopUsers results m k, metricValue m x ≤ metricValue m y) := by
  refine ⟨?_, ?_, ?_, ?_, ?_⟩
  · intro x hx
    have hxs : x ∈ (results.filter (fun u => !isError u)).insertionSort (metricGE m) :=
      List.mem_of_mem_take hx
    have hxf : x ∈ results.filter (fun u => !isError u) :=
      (List.mem_insertionSort (metricGE m)).mp hxs
    have := (List.mem_filter.mp hxf).2
    simpa using this
  · exact List.length_take_le k _
  · have hs : List.Sorted (metricGE m)
        ((results.filter (fun u => !isError u)).insertionSort (metricGE m)) :=
      List.sorted_insertionSort (metricGE m) _
    exact hs.sublist (List.take_sublist k _)
  · intro v
    refine ⟨((((results.filter (fun u => !isError u)).insertionSort
        (metricGE m)).take k).filter (fun x => metricValue m x == v)).length, ?_⟩
    rw [← filter_insertionSort_metric m v (results.filter (fun u => !isError u))]
    exact (filter_take_front (fun x => metricValue m x == v)
      ((results.filter (fun u => !isError u)).insertionSort (metricGE m)) k).symm
  · intro x hx hxe hxtop y hy
    have hxf : x ∈ results.filter (fun u => !isError u) :=
      List.mem_filter.mpr ⟨hx, by simp [hxe]⟩
    have hxs : x ∈ (results.filter (fun u => !isError u)).insertionSort (metricGE m) :=
      (List.mem_insertionSort (metricGE m)).mpr hxf
    set s := (results.filter (fun u => !isError u)).insertionSort (metricGE m) with hsdef
    have hsplit : x ∈ s.take k ++ s.drop k := by
      rw [List.take_append_drop]
      exact hxs
    rcases List.mem_append.mp hsplit with hxin | hxdrop
    · exact absurd hxin hxtop
    · have hsorted : List.Sorted (metricGE m) s :=
        List.sorted_insertionSort (metricGE m) _
      exact hsorted.rel_of_mem_take_of_mem_drop hy hxdrop

theorem claim_C7_witness :
    metricValue Metric.followers (Outcome.success "b" ⟨7, 0, 0, 0, []⟩)
      ≤ metricValue Metric.followers (Outcome.success "a" ⟨10, 0, 0, 0, []⟩) :=
  (claim_C7 [Outcome.success "a" ⟨10, 0, 0, 0, []⟩,
      Outcome.success "b" ⟨7, 0, 0, 0, []⟩] Metric.followers 1).2.2.2.2
    (Outcome.success "b" ⟨7, 0, 0, 0, []⟩) (by decide) rfl (by decide)
    (Outcome.success "a" ⟨10, 0, 0, 0, []⟩) (by decide)

/-- C9 counterexample: the persisted outputData object has exactly the
keys timestamp, results, totals and highest; it has no deltas (or
differences) key at all, so in a run where a previous report existed the
document still carries no deltas field, contrary to the claim. -/
theorem claim_C9_counterexample :
    outputDataKeys = ["timestamp", "results", "totals", "highest"]
    ∧ "deltas" ∉ outputDataKeys
    ∧ "differences" ∉ outputDataKeys := by
  exact ⟨rfl, by decide, by decide⟩

/-- C9 (amended): the persisted document always contains the timestamp,
the full ordered outcome list including error entries, the totals and the
per-metric rankings, and it never contains a deltas field, even when a
previous report existed: the computed differences are only printed to the
console and are not persisted. -/
theorem claim_C9 (att : String → Nat → AttemptResult) (usernames : List String)
    (retries rankLimit batchSize : Nat) (lastReport : Option Report) (ts : String)
    (hbs : 1 ≤ batchSize) :
    (mainRun att usernames retries rankLimit batchSize lastReport ts).timestamp = ts
    ∧ (mainRun att usernames retries rankLimit batchSize lastReport ts).results
        = validateVideoCounts att
          (processInBatches (fun u => scrapeTikTokProfile (att u) u retries)
            batchSize usernames)
          lastReport
    ∧ (mainRun att usernames retries rankLimit batchSize lastReport ts).results.length
        = usernames.length
    ∧ (mainRun att usernames retries rankLimit batchSize lastReport ts).totals
        = totals usernames
          (mainRun att usernames retries rankLimit batchSize lastReport ts).results
    ∧ (mainRun att usernames retries rankLimit batchSize lastReport
          ts).highest.topUsersByFollowers
        = getTopUsers
          (mainRun att usernames retries rankLimit batchSize lastReport ts).results
          Metric.followers rankLimit
    ∧ (mainRun att usernames retries rankLimit batchSize lastReport
          ts).highest.topUsersByViews
        = getTopUsers
          (mainRun att usernames retries rankLimit batchSize lastReport ts).results
          Metric.totalViews rankLimit
    ∧ (mainRun att usernames retries rankLimit batchSize lastReport
          ts).highest.topUsersByLikes
        = getTopUsers
          (mainRun att usernames retries rankLimit batchSize lastReport ts).results
          Metric.likes rankLimit
    ∧ "deltas" ∉ outputDataKeys
    ∧ "differences" ∉ outputDataKeys := by
  refine ⟨rfl, rfl, ?_, rfl, rfl, rfl, rfl, by decide, by decide⟩
  show (validateVideoCounts att
      (processInBatches (fun u => scrapeTikTokProfile (att u) u retries)
        batchSize usernames) lastReport).length = usernames.length
  rw [validateVideoCounts_length, processInBatches_eq_map, List.length_map]

theorem claim_C9_witness :
    (mainRun (fun _ _ => AttemptResult.timeoutError) ["u"] 1 5 5 none "t").results.length
      = (["u"] : List String).length :=
  (claim_C9 (fun _ _ => AttemptResult.timeoutError) ["u"] 1 5 5 none "t"
    (by decide)).2.2.1

end TikTokCounts
